import Mathlib

/-!
Shallow embedding of `spartanews/articles/views.py` (a Django/DRF module).

Modelling conventions:
* Database rows are Lean structures; the store (`DB`) holds lists of rows and
  many-to-many relation tables as lists of (user id, target id) pairs, in
  insertion order (Django's `add` appends a relation row, `remove` deletes
  all rows for the pair).
* Timestamps are microseconds since the epoch, as `Nat` (Django datetimes are
  always after the epoch).  `timezone.now().replace(microsecond=0)` zeroes the
  sub-second part, i.e. truncates the timestamp down to a whole second.
* The two `Count` aggregations sit in one `annotate()` call, so the compiled
  query LEFT JOINs both the comment and the like table at once and each
  `COUNT` counts non-null entries of its column over the joined cross-product
  rows: `comment_count = #comments * max(#likes, 1)` and
  `like_count = #likes * max(#comments, 1)` (Django's documented behaviour
  when combining multiple aggregations over multi-valued relations).
* `QuerySet.order_by` is modelled with `List.insertionSort` over the decidable
  total preorder that the ORDER BY clause denotes.
* Fallible request handlers return an explicit result constructor per outcome:
  HTTP 406 (`InvalidQueryParamsException`), the unhandled
  `UserInfo.DoesNotExist` escape, 404, 403, and so on.
-/

/-- A row of the user table (`get_user_model()`): id plus the `username`
echoed by the toggle endpoints. -/
structure UserRow where
  id : Nat
  username : String
deriving Repr, DecidableEq

/-- A row of `ContentInfo`: id, author (`userinfo_id`), opaque title/body,
creation timestamp `create_dt` (microseconds), soft-delete flag. -/
structure ContentRow where
  id : Nat
  userinfo_id : Nat
  title : String
  create_dt : Nat
  is_visible : Bool
deriving Repr, DecidableEq

/-- A row of `CommentInfo`: id, author, parent content, opaque body,
creation timestamp, soft-delete flag. -/
structure CommentRow where
  id : Nat
  userinfo_id : Nat
  contentinfo_id : Nat
  body : String
  create_dt : Nat
  is_visible : Bool
deriving Repr, DecidableEq

/-- The backing store: the three row tables and the three many-to-many
relation tables (`favorite_contents`, `liked_contents`, `liked_comments`),
each a list of (user id, target id) pairs. -/
structure DB where
  users : List UserRow
  contents : List ContentRow
  comments : List CommentRow
  content_favorites : List (Nat × Nat)
  content_likes : List (Nat × Nat)
  comment_likes : List (Nat × Nat)
deriving Repr, DecidableEq

/-- Python truthiness of an optional query-parameter string (`if favorite_by:`):
`None` and the empty string are falsy. -/
def truthy : Option String → Bool
  | none => false
  | some s => !s.isEmpty

/-- Python `str.isdecimal` restricted to ASCII: true iff the string is
non-empty and all characters are decimal digits. -/
def isdecimal (s : String) : Bool :=
  !s.isEmpty && s.data.all (fun c => c.isDigit)

/-- Python `int(s)` on a decimal-digit string. -/
def pyInt (s : String) : Nat :=
  s.data.foldl (fun n c => n * 10 + (c.toNat - 48)) 0

/-- `timezone.now().replace(microsecond=0)`: the per-query "now" snapshot with
the microsecond field zeroed (truncated down to a whole second). -/
def truncSeconds (now : Nat) : Nat :=
  now / 1000000 * 1000000

/-- Microseconds per day, the divisor `1000 * 1000 * 60 * 60 * 24` of the
`duration` annotation. -/
def MICROS_PER_DAY : Int := 1000 * 1000 * 60 * 60 * 24

/-- The comment rows whose `contentinfo_id` is this content's id — the rows
the LEFT JOIN on `comments_on_content` contributes.  No visibility filter
appears in the source aggregation. -/
def commentRowsOf (db : DB) (cid : Nat) : Nat :=
  (db.comments.filter (fun m => m.contentinfo_id == cid)).length

/-- The rows of the content-like relation whose target is this content — the
rows the LEFT JOIN on `liked_by` contributes. -/
def likeRowsOf (db : DB) (cid : Nat) : Nat :=
  (db.content_likes.filter (fun q => q.2 == cid)).length

/-- The `comment_count=Count(F("comments_on_content"))` annotation.  Both
`Count`s live in a single `annotate()`, so the query joins the comment and the
like table simultaneously and the `COUNT` over the comment column counts each
comment once per joined like row: `#comments * max(#likes, 1)`. -/
def commentCountOf (db : DB) (cid : Nat) : Nat :=
  commentRowsOf db cid * max (likeRowsOf db cid) 1

/-- The `like_count=Count(F("liked_by"))` annotation, inflated by the
simultaneous comment join: `#likes * max(#comments, 1)`. -/
def likeCountOf (db : DB) (cid : Nat) : Nat :=
  likeRowsOf db cid * max (commentRowsOf db cid) 1

/-- An annotated content row as produced by the two `get_queryset` pipelines:
the row plus `comment_count`, `like_count`, `duration` (whole days) and
`article_point`. -/
structure AnnotatedContent where
  row : ContentRow
  comment_count : Nat
  like_count : Nat
  duration : Int
  article_point : Int
deriving Repr, DecidableEq

/-- The annotation stage of `ContentListAPIView.get_queryset`:
`duration_in_microseconds` is the truncated now minus `create_dt`; `duration`
is that divided by `MICROS_PER_DAY` (SQLite integer division, then `FLOOR`,
which is the identity on integers); `article_point` is
`-5*duration + 3*comment_count + like_count`. -/
def listAnnotate (db : DB) (now : Nat) (c : ContentRow) : AnnotatedContent :=
  let comment_count := commentCountOf db c.id
  let like_count := likeCountOf db c.id
  let duration_in_microseconds : Int :=
    (truncSeconds now : Int) - (c.create_dt : Int)
  let duration : Int := Int.tdiv duration_in_microseconds MICROS_PER_DAY
  { row := c
    comment_count := comment_count
    like_count := like_count
    duration := duration
    article_point := -5 * duration + 3 * comment_count + like_count }

/-- The annotation stage of `ContentDetailAPIView.get_queryset`, written out
separately in the source with the identical expressions. -/
def detailAnnotate (db : DB) (now : Nat) (c : ContentRow) : AnnotatedContent :=
  let comment_count := commentCountOf db c.id
  let like_count := likeCountOf db c.id
  let duration_in_microseconds : Int :=
    (truncSeconds now : Int) - (c.create_dt : Int)
  let duration : Int := Int.tdiv duration_in_microseconds MICROS_PER_DAY
  { row := c
    comment_count := comment_count
    like_count := like_count
    duration := duration
    article_point := -5 * duration + 3 * comment_count + like_count }

/-- `ORDER BY article_point DESC, create_dt DESC` as a total preorder. -/
def defaultOrder (a b : AnnotatedContent) : Prop :=
  b.article_point < a.article_point ∨
    (a.article_point = b.article_point ∧ b.row.create_dt ≤ a.row.create_dt)

instance : DecidableRel defaultOrder := fun a b => by
  unfold defaultOrder; infer_instance

instance : IsTotal AnnotatedContent defaultOrder := by
  constructor; intro a b; unfold defaultOrder; omega

instance : IsTrans AnnotatedContent defaultOrder := by
  constructor; intro a b c hab hbc; unfold defaultOrder at *; omega

/-- `ORDER BY create_dt DESC` as a total preorder. -/
def newOrder (a b : AnnotatedContent) : Prop :=
  b.row.create_dt ≤ a.row.create_dt

instance : DecidableRel newOrder := fun a b => by
  unfold newOrder; infer_instance

instance : IsTotal AnnotatedContent newOrder := by
  constructor; intro a b; unfold newOrder; omega

instance : IsTrans AnnotatedContent newOrder := by
  constructor; intro a b c hab hbc; unfold newOrder at *; omega

/-- The query parameters read by `ContentListAPIView.get_queryset`. -/
structure ContentListParams where
  order_by : Option String
  favorite_by : Option String
  liked_by : Option String
  user : Option String
deriving Repr, DecidableEq

/-- Outcome of a list `get_queryset`: a row list, the custom
`InvalidQueryParamsException` (HTTP 406), or the unhandled
`UserInfo.DoesNotExist` raised by an unguarded `objects.get`. -/
inductive ListResult (α : Type) where
  | ok : List α → ListResult α
  | invalidQueryParams : ListResult α
  | userDoesNotExist : ListResult α
deriving Repr, DecidableEq

/-- The filtering stage of `ContentListAPIView.get_queryset`: the chain of
`if favorite_by / elif liked_by / elif user / else` branches.  A truthy
selector is validated with `isdecimal` (else HTTP 406); the favorite/liked
selectors then fetch the user with `objects.get`, which raises if the id names
no user; the row set is the corresponding relation filtered by
`is_visible=True`. -/
def contentListRows (db : DB) (p : ContentListParams) : ListResult ContentRow :=
  if truthy p.favorite_by then
    let s := p.favorite_by.getD ""
    if isdecimal s then
      if db.users.any (fun u => u.id == pyInt s) then
        .ok (db.contents.filter (fun c =>
          db.content_favorites.contains (pyInt s, c.id) && c.is_visible))
      else
        .userDoesNotExist
    else
      .invalidQueryParams
  else if truthy p.liked_by then
    let s := p.liked_by.getD ""
    if isdecimal s then
      if db.users.any (fun u => u.id == pyInt s) then
        .ok (db.contents.filter (fun c =>
          db.content_likes.contains (pyInt s, c.id) && c.is_visible))
      else
        .userDoesNotExist
    else
      .invalidQueryParams
  else if truthy p.user then
    let s := p.user.getD ""
    if isdecimal s then
      .ok (db.contents.filter (fun c =>
        c.is_visible && c.userinfo_id == pyInt s))
    else
      .invalidQueryParams
  else
    .ok (db.contents.filter (fun c => c.is_visible))

/-- `ContentListAPIView.get_queryset` end to end: filter, annotate, order.
`order-by=new` sorts by creation time descending; any other value sorts by
`article_point` descending then creation time descending. -/
def contentList (db : DB) (now : Nat) (p : ContentListParams) :
    ListResult AnnotatedContent :=
  match contentListRows db p with
  | .invalidQueryParams => .invalidQueryParams
  | .userDoesNotExist => .userDoesNotExist
  | .ok rows =>
    let ann := rows.map (listAnnotate db now)
    if p.order_by == some "new" then
      .ok (ann.insertionSort newOrder)
    else
      .ok (ann.insertionSort defaultOrder)

/-- `ContentDetailAPIView.get_queryset`: the row with this id and
`is_visible=True`; when there is none, the empty queryset; otherwise the same
annotation pipeline as the list view. -/
def contentDetail (db : DB) (now : Nat) (content_id : Nat) :
    List AnnotatedContent :=
  let row := db.contents.filter (fun c => c.id == content_id && c.is_visible)
  if row.isEmpty then
    []
  else
    row.map (detailAnnotate db now)

/-- `ORDER BY create_dt` (ascending) on comment rows. -/
def commentAscOrder (a b : CommentRow) : Prop :=
  a.create_dt ≤ b.create_dt

instance : DecidableRel commentAscOrder := fun a b => by
  unfold commentAscOrder; infer_instance

instance : IsTotal CommentRow commentAscOrder := by
  constructor; intro a b; unfold commentAscOrder; omega

instance : IsTrans CommentRow commentAscOrder := by
  constructor; intro a b c hab hbc; unfold commentAscOrder at *; omega

/-- `ORDER BY create_dt DESC` on comment rows. -/
def commentDescOrder (a b : CommentRow) : Prop :=
  b.create_dt ≤ a.create_dt

instance : DecidableRel commentDescOrder := fun a b => by
  unfold commentDescOrder; infer_instance

instance : IsTotal CommentRow commentDescOrder := by
  constructor; intro a b; unfold commentDescOrder; omega

instance : IsTrans CommentRow commentDescOrder := by
  constructor; intro a b c hab hbc; unfold commentDescOrder at *; omega

/-- The query parameters read by `CommentListAPIView.get_queryset`. -/
structure CommentListParams where
  liked_by : Option String
  user : Option String
deriving Repr, DecidableEq

/-- Python truthiness of the optional `content_id` URL kwarg (`if content_id:`). -/
def natTruthy : Option Nat → Bool
  | none => false
  | some n => n != 0

/-- `CommentListAPIView.get_queryset`: with a truthy `content_id` kwarg, the
visible comments of that content ordered by creation time ascending; otherwise
the global feed filtered by the `liked-by` / `user` selectors (validated like
the content list) and ordered by creation time descending. -/
def commentList (db : DB) (content_id : Option Nat) (p : CommentListParams) :
    ListResult CommentRow :=
  match content_id, natTruthy content_id with
  | some cid, true =>
    .ok ((db.comments.filter (fun m =>
      m.contentinfo_id == cid && m.is_visible)).insertionSort commentAscOrder)
  | _, _ =>
    if truthy p.liked_by then
      let s := p.liked_by.getD ""
      if isdecimal s then
        if db.users.any (fun u => u.id == pyInt s) then
          .ok ((db.comments.filter (fun m =>
            db.comment_likes.contains (pyInt s, m.id) &&
              m.is_visible)).insertionSort commentDescOrder)
        else
          .userDoesNotExist
      else
        .invalidQueryParams
    else if truthy p.user then
      let s := p.user.getD ""
      if isdecimal s then
        .ok ((db.comments.filter (fun m =>
          m.is_visible && m.userinfo_id == pyInt s)).insertionSort
            commentDescOrder)
      else
        .invalidQueryParams
    else
      .ok ((db.comments.filter (fun m =>
        m.is_visible)).insertionSort commentDescOrder)

/-- A partial-update payload for a serializer with `partial=True`: `valid`
stands for `serializer.is_valid()`, `text` for an optional opaque field
replacement applied by `serializer.save()`. -/
structure Payload where
  valid : Bool
  text : Option String
deriving Repr, DecidableEq

/-- `serializer.save()` on a content partial update: replace the supplied
fields. -/
def applyPayload (p : Payload) (c : ContentRow) : ContentRow :=
  { c with title := p.text.getD c.title }

/-- Outcome of a mutation handler, one constructor per HTTP status the source
returns (404 from `get_object_or_404`, 403, DRF validation error, 200/202
success, 204 no content). -/
inductive MutResult where
  | notFound
  | forbidden
  | validationError
  | ok
  | noContent
deriving Repr, DecidableEq

/-- `ContentDetailAPIView.get_row`: `get_object_or_404(ContentInfo, pk=...)`,
a raw primary-key lookup with no visibility filter. -/
def content_get_row (db : DB) (content_id : Nat) : Option ContentRow :=
  db.contents.find? (fun c => c.id == content_id)

/-- `CommentDetailAPIView.get_row`: raw primary-key lookup on `CommentInfo`. -/
def comment_get_row (db : DB) (comment_id : Nat) : Option CommentRow :=
  db.comments.find? (fun m => m.id == comment_id)

/-- `ContentDetailAPIView.put`: 404 if the raw lookup fails, 403 if the
requester is not the author, else validate the payload and save the partial
update. -/
def contentPut (db : DB) (requester : Nat) (content_id : Nat) (p : Payload) :
    MutResult × DB :=
  match content_get_row db content_id with
  | none => (.notFound, db)
  | some row =>
    if requester != row.userinfo_id then
      (.forbidden, db)
    else if p.valid then
      (.ok, { db with contents := db.contents.map (fun c =>
        if c.id == content_id then applyPayload p c else c) })
    else
      (.validationError, db)

/-- `ContentDetailAPIView.delete`: 404 if the raw lookup fails, 403 if the
requester is not the author, else set `is_visible = False` (soft delete) and
return 204. -/
def contentDelete (db : DB) (requester : Nat) (content_id : Nat) :
    MutResult × DB :=
  match content_get_row db content_id with
  | none => (.notFound, db)
  | some row =>
    if requester != row.userinfo_id then
      (.forbidden, db)
    else
      (.noContent, { db with contents := db.contents.map (fun c =>
        if c.id == content_id then { c with is_visible := false } else c) })

/-- `serializer.save()` on a comment partial update: replace the supplied
fields. -/
def applyCommentPayload (p : Payload) (m : CommentRow) : CommentRow :=
  { m with body := p.text.getD m.body }

/-- `CommentDetailAPIView.put`: 404 / 403 / validation / 202, the comment
equivalent of `contentPut`. -/
def commentPut (db : DB) (requester : Nat) (comment_id : Nat) (p : Payload) :
    MutResult × DB :=
  match comment_get_row db comment_id with
  | none => (.notFound, db)
  | some row =>
    if requester != row.userinfo_id then
      (.forbidden, db)
    else if p.valid then
      (.ok, { db with comments := db.comments.map (fun m =>
        if m.id == comment_id then applyCommentPayload p m else m) })
    else
      (.validationError, db)

/-- `CommentDetailAPIView.delete`: 404 / 403 / soft delete with 204. -/
def commentDelete (db : DB) (requester : Nat) (comment_id : Nat) :
    MutResult × DB :=
  match comment_get_row db comment_id with
  | none => (.notFound, db)
  | some row =>
    if requester != row.userinfo_id then
      (.forbidden, db)
    else
      (.noContent, { db with comments := db.comments.map (fun m =>
        if m.id == comment_id then { m with is_visible := false } else m) })

/-- The JSON body of a toggle endpoint's 200 response: the `"message"` key is
always present; `"user"` and `"content_id"` only when the branch emits them. -/
structure ToggleBody where
  message : String
  user : Option String
  content_id : Option Nat
deriving Repr, DecidableEq

/-- Outcome of a toggle endpoint: 403 for an unauthenticated actor, 404 from
`get_object_or_404` on the target, the unhandled `DoesNotExist` of the
`objects.get` on the actor, or 200 with a body. -/
inductive ToggleResult where
  | forbidden
  | notFound
  | userDoesNotExist
  | ok : ToggleBody → ToggleResult
deriving Repr, DecidableEq

/-- `content_favorite`: authenticated actor only (else 403); re-fetch the
actor, `get_object_or_404` the content; if the (actor, content) pair is in the
favorite relation, remove it and answer `"Favorite content canceled."`
(message only); otherwise add it and answer `"Favorite content success."`
with the username and content id echoed. -/
def content_favorite (db : DB) (auth : Option Nat) (content_id : Nat) :
    ToggleResult × DB :=
  match auth with
  | none => (.forbidden, db)
  | some uid =>
    match db.users.find? (fun u => u.id == uid) with
    | none => (.userDoesNotExist, db)
    | some me =>
      match db.contents.find? (fun c => c.id == content_id) with
      | none => (.notFound, db)
      | some content =>
        if db.content_favorites.contains (uid, content_id) then
          (.ok { message := "Favorite content canceled."
                 user := none
                 content_id := none },
           { db with content_favorites :=
              db.content_favorites.filter (fun q => q != (uid, content_id)) })
        else
          (.ok { message := "Favorite content success."
                 user := some me.username
                 content_id := some content.id },
           { db with content_favorites :=
              db.content_favorites ++ [(uid, content_id)] })

/-- `content_like`: same shape as `content_favorite` over the content-like
relation, with messages `"Like content canceled."` / `"Like content
success."`. -/
def content_like (db : DB) (auth : Option Nat) (content_id : Nat) :
    ToggleResult × DB :=
  match auth with
  | none => (.forbidden, db)
  | some uid =>
    match db.users.find? (fun u => u.id == uid) with
    | none => (.userDoesNotExist, db)
    | some me =>
      match db.contents.find? (fun c => c.id == content_id) with
      | none => (.notFound, db)
      | some content =>
        if db.content_likes.contains (uid, content_id) then
          (.ok { message := "Like content canceled."
                 user := none
                 content_id := none },
           { db with content_likes :=
              db.content_likes.filter (fun q => q != (uid, content_id)) })
        else
          (.ok { message := "Like content success."
                 user := some me.username
                 content_id := some content.id },
           { db with content_likes :=
              db.content_likes ++ [(uid, content_id)] })

/-- `comment_like`: same shape over the comment-like relation; the success
body echoes the comment's id under the `"content_id"` key. -/
def comment_like (db : DB) (auth : Option Nat) (comment_id : Nat) :
    ToggleResult × DB :=
  match auth with
  | none => (.forbidden, db)
  | some uid =>
    match db.users.find? (fun u => u.id == uid) with
    | none => (.userDoesNotExist, db)
    | some me =>
      match db.comments.find? (fun m => m.id == comment_id) with
      | none => (.notFound, db)
      | some comment =>
        if db.comment_likes.contains (uid, comment_id) then
          (.ok { message := "Like comment canceled."
                 user := none
                 content_id := none },
           { db with comment_likes :=
              db.comment_likes.filter (fun q => q != (uid, comment_id)) })
        else
          (.ok { message := "Like comment success."
                 user := some me.username
                 content_id := some comment.id },
           { db with comment_likes :=
              db.comment_likes ++ [(uid, comment_id)] })

/-! ### Shared sample data and helper lemmas -/

/-- A sample content row: id 5, author 9, created at the epoch, visible. -/
def c5 : ContentRow :=
  { id := 5, userinfo_id := 9, title := "hello", create_dt := 0,
    is_visible := true }

/-- A sample content row: id 6, author 7, soft-deleted. -/
def c6 : ContentRow :=
  { id := 6, userinfo_id := 7, title := "bye", create_dt := 86400000000,
    is_visible := false }

/-- A sample store: two users, a visible and a soft-deleted content, a visible
and a soft-deleted comment on content 5, one favorite, one content like, one
comment like. -/
def sampleDB : DB :=
  { users := [{ id := 9, username := "kim" }, { id := 7, username := "lee" }]
    contents := [c5, c6]
    comments := [
      { id := 11, userinfo_id := 7, contentinfo_id := 5, body := "hi",
        create_dt := 1000, is_visible := true },
      { id := 12, userinfo_id := 9, contentinfo_id := 5, body := "gone",
        create_dt := 2000, is_visible := false }]
    content_favorites := [(7, 5)]
    content_likes := [(7, 5)]
    comment_likes := [(9, 11)] }

/-- Query parameters with no selector and no ordering. -/
def pNone : ContentListParams :=
  { order_by := none, favorite_by := none, liked_by := none, user := none }

/-- Query parameters requesting `order-by=new`. -/
def pNew : ContentListParams :=
  { order_by := some "new", favorite_by := none, liked_by := none,
    user := none }

/-- A sample query time: two days and 0.123456 s after the epoch. -/
def t0 : Nat := 172800123456

/-- Extract the row list of an `ok` outcome (empty on the error outcomes). -/
def okList {α : Type} : ListResult α → List α
  | .ok l => l
  | _ => []

/-- Truncation toward zero agrees with floor division on a non-negative
numerator and denominator. -/
theorem tdiv_eq_fdiv_of_nonneg {a b : Int} (ha : 0 ≤ a) (hb : 0 ≤ b) :
    Int.tdiv a b = Int.fdiv a b := by
  rw [Int.tdiv_eq_ediv ha hb, Int.fdiv_eq_ediv _ hb]

/-- `List.contains` decides membership (lawful `BEq`). -/
theorem contains_iff_mem {α : Type} [BEq α] [LawfulBEq α] (l : List α)
    (a : α) : l.contains a = true ↔ a ∈ l :=
  List.elem_iff

/-- Every element of an `ok` result of `contentList` is the list annotation of
some content row of the store. -/
theorem mem_contentList (db : DB) (now : Nat) (p : ContentListParams)
    (l : List AnnotatedContent) (a : AnnotatedContent)
    (hok : contentList db now p = .ok l) (ha : a ∈ l) :
    ∃ c : ContentRow, a = listAnnotate db now c := by
  unfold contentList at hok
  split at hok
  · cases hok
  · cases hok
  next rows heq =>
    split at hok <;> (
      cases hok
      rw [List.mem_insertionSort] at ha
      obtain ⟨c, _, hc⟩ := List.mem_map.mp ha
      exact ⟨c, hc.symm⟩)

/-- Every element of `contentDetail` is the detail annotation of some content
row of the store. -/
theorem mem_contentDetail (db : DB) (now : Nat) (cid : Nat)
    (a : AnnotatedContent) (ha : a ∈ contentDetail db now cid) :
    ∃ c : ContentRow, a = detailAnnotate db now c := by
  simp only [contentDetail] at ha
  split at ha
  · cases ha
  · obtain ⟨c, _, hc⟩ := List.mem_map.mp ha
    exact ⟨c, hc.symm⟩

/-- The `article_point` of a list-annotated row satisfies the score formula
with floor-division age, provided the row was created no later than the
truncated query snapshot. -/
theorem listAnnotate_point (db : DB) (now : Nat) (c : ContentRow)
    (h : c.create_dt ≤ truncSeconds now) :
    (listAnnotate db now c).article_point =
      -5 * Int.fdiv ((truncSeconds now : Int) - (c.create_dt : Int))
          MICROS_PER_DAY
        + 3 * ((listAnnotate db now c).comment_count : Int)
        + ((listAnnotate db now c).like_count : Int) := by
  have h0 : 0 ≤ (truncSeconds now : Int) - (c.create_dt : Int) := by omega
  dsimp only [listAnnotate]
  rw [tdiv_eq_fdiv_of_nonneg h0 (by unfold MICROS_PER_DAY; omega)]

/-- C2: for every item returned by the list or the detail operation, the
annotated `article_point` equals `-5 * age_days + 3 * comment_count +
like_count`, where `age_days` is the floor, in whole days, of the elapsed time
from the item's creation timestamp to the per-query now snapshot truncated to
whole seconds; and the list view and the detail view use the same annotation
formula and truncation rule. -/
theorem C2_score_formula :
    (∀ (db : DB) (now : Nat) (p : ContentListParams)
      (l : List AnnotatedContent) (a : AnnotatedContent),
      contentList db now p = .ok l → a ∈ l →
      a.row.create_dt ≤ truncSeconds now →
      a.article_point =
        -5 * Int.fdiv ((truncSeconds now : Int) - (a.row.create_dt : Int))
            MICROS_PER_DAY
          + 3 * (a.comment_count : Int) + (a.like_count : Int)) ∧
    (∀ (db : DB) (now : Nat) (cid : Nat) (a : AnnotatedContent),
      a ∈ contentDetail db now cid →
      a.row.create_dt ≤ truncSeconds now →
      a.article_point =
        -5 * Int.fdiv ((truncSeconds now : Int) - (a.row.create_dt : Int))
            MICROS_PER_DAY
          + 3 * (a.comment_count : Int) + (a.like_count : Int)) ∧
    listAnnotate = detailAnnotate := by
  refine ⟨?_, ?_, rfl⟩
  · intro db now p l a hok ha hle
    obtain ⟨c, rfl⟩ := mem_contentList db now p l a hok ha
    exact listAnnotate_point db now c hle
  · intro db now cid a ha hle
    obtain ⟨c, rfl⟩ := mem_contentDetail db now cid a ha
    exact listAnnotate_point db now c hle

/-- Witness for C2 at the sample store: content 5 queried two days after
creation. -/
theorem C2_score_formula_witness :
    (listAnnotate sampleDB t0 c5).article_point =
      -5 * Int.fdiv ((truncSeconds t0 : Int)
          - ((listAnnotate sampleDB t0 c5).row.create_dt : Int)) MICROS_PER_DAY
        + 3 * ((listAnnotate sampleDB t0 c5).comment_count : Int)
        + ((listAnnotate sampleDB t0 c5).like_count : Int) :=
  C2_score_formula.1 sampleDB t0 pNone [listAnnotate sampleDB t0 c5]
    (listAnnotate sampleDB t0 c5) (by decide) (by decide) (by decide)

/-- C3: a `contentList` result under `order-by=new` is ordered by creation
time descending only; under any other ordering value, including absent, it is
ordered by `article_point` descending with ties broken by creation time
descending. -/
theorem C3_list_ordering :
    (∀ (db : DB) (now : Nat) (p : ContentListParams)
      (l : List AnnotatedContent), p.order_by = some "new" →
      contentList db now p = .ok l → l.Sorted newOrder) ∧
    (∀ (db : DB) (now : Nat) (p : ContentListParams)
      (l : List AnnotatedContent), p.order_by ≠ some "new" →
      contentList db now p = .ok l → l.Sorted defaultOrder) := by
  constructor
  · intro db now p l hnew hok
    unfold contentList at hok
    split at hok
    · cases hok
    · cases hok
    · have hcond : (p.order_by == some "new") = true := by
        rw [hnew]; rfl
      rw [if_pos hcond] at hok
      cases hok
      exact List.sorted_insertionSort newOrder _
  · intro db now p l hne hok
    unfold contentList at hok
    split at hok
    · cases hok
    · cases hok
    · have hcond : (p.order_by == some "new") = false :=
        beq_eq_false_iff_ne.mpr hne
      rw [if_neg (by rw [hcond]; exact Bool.false_ne_true)] at hok
      cases hok
      exact List.sorted_insertionSort defaultOrder _

/-- Witness for C3 at the sample store, in both ordering modes. -/
theorem C3_list_ordering_witness :
    List.Sorted newOrder (okList (contentList sampleDB t0 pNew)) ∧
    List.Sorted defaultOrder (okList (contentList sampleDB t0 pNone)) :=
  ⟨C3_list_ordering.1 sampleDB t0 pNew _ (by decide) (by decide),
   C3_list_ordering.2 sampleDB t0 pNone _ (by decide) (by decide)⟩

/-- C1 counterexample: in the sample store, content 5 carries one visible and
one soft-deleted comment and a single like.  The annotated `comment_count` is
2 (the soft-deleted comment is not excluded) and the annotated `like_count` is
2 (inflated by the simultaneous comment join), while the number of its
comments with `is_visible=True` and the cardinality of its like relation are
both 1. -/
theorem C1_counterexample :
    (okList (contentList sampleDB t0 pNone)).map
        (fun a => (a.row.id, a.comment_count, a.like_count)) = [(5, 2, 2)] ∧
    (sampleDB.comments.filter
        (fun m => m.contentinfo_id == 5 && m.is_visible)).length = 1 ∧
    (sampleDB.content_likes.filter (fun q => q.2 == 5)).length = 1 := by
  decide

/-- C1 as amended: for every item returned by `contentList` or
`contentDetail`, the annotated `comment_count` equals the number of all
comments attached to the item — soft-deleted ones included, since the
aggregation carries no visibility filter — multiplied by the number of the
item's like rows when that is non-zero, and the annotated `like_count` equals
the cardinality of the item's like relation multiplied by the number of all
attached comments when that is non-zero: the cross-product inflation of
evaluating both `Count`s in one `annotate()`. -/
theorem C1_amended_counts :
    (∀ (db : DB) (now : Nat) (p : ContentListParams)
      (l : List AnnotatedContent) (a : AnnotatedContent),
      contentList db now p = .ok l → a ∈ l →
      a.comment_count =
        (db.comments.filter (fun m => m.contentinfo_id == a.row.id)).length *
          max (db.content_likes.filter (fun q => q.2 == a.row.id)).length 1 ∧
      a.like_count =
        (db.content_likes.filter (fun q => q.2 == a.row.id)).length *
          max (db.comments.filter
            (fun m => m.contentinfo_id == a.row.id)).length 1) ∧
    (∀ (db : DB) (now : Nat) (cid : Nat) (a : AnnotatedContent),
      a ∈ contentDetail db now cid →
      a.comment_count =
        (db.comments.filter (fun m => m.contentinfo_id == a.row.id)).length *
          max (db.content_likes.filter (fun q => q.2 == a.row.id)).length 1 ∧
      a.like_count =
        (db.content_likes.filter (fun q => q.2 == a.row.id)).length *
          max (db.comments.filter
            (fun m => m.contentinfo_id == a.row.id)).length 1) := by
  constructor
  · intro db now p l a hok ha
    obtain ⟨c, rfl⟩ := mem_contentList db now p l a hok ha
    exact ⟨rfl, rfl⟩
  · intro db now cid a ha
    obtain ⟨c, rfl⟩ := mem_contentDetail db now cid a ha
    exact ⟨rfl, rfl⟩

/-- Witness for the amended C1 at the sample store. -/
theorem C1_amended_counts_witness :
    (listAnnotate sampleDB t0 c5).comment_count =
      (sampleDB.comments.filter (fun m =>
        m.contentinfo_id == (listAnnotate sampleDB t0 c5).row.id)).length *
        max (sampleDB.content_likes.filter (fun q =>
          q.2 == (listAnnotate sampleDB t0 c5).row.id)).length 1 ∧
    (listAnnotate sampleDB t0 c5).like_count =
      (sampleDB.content_likes.filter (fun q =>
        q.2 == (listAnnotate sampleDB t0 c5).row.id)).length *
        max (sampleDB.comments.filter (fun m =>
          m.contentinfo_id == (listAnnotate sampleDB t0 c5).row.id)).length 1 :=
  C1_amended_counts.1 sampleDB t0 pNone [listAnnotate sampleDB t0 c5]
    (listAnnotate sampleDB t0 c5) (by decide) (by decide)

/-- With pairwise distinct content ids, the detail filter returns exactly the
matching visible row. -/
theorem filter_id_visible_singleton {cid : Nat} :
    ∀ (l : List ContentRow), (l.map (fun c => c.id)).Nodup →
      ∀ c, c ∈ l → c.id = cid → c.is_visible = true →
      l.filter (fun c => c.id == cid && c.is_visible) = [c] := by
  intro l
  induction l with
  | nil => intro _ c hc; cases hc
  | cons h t ih =>
    intro hnd c hc hid hvis
    rw [List.map_cons, List.nodup_cons] at hnd
    obtain ⟨hni, hnd2⟩ := hnd
    rcases List.mem_cons.mp hc with rfl | hct
    · rw [List.filter_cons, if_pos (by rw [hid, hvis]; simp)]
      have ht : t.filter (fun c => c.id == cid && c.is_visible) = [] := by
        rw [List.filter_eq_nil_iff]
        intro x hx hpx
        have hxid : x.id = cid := by
          have := (Bool.and_eq_true _ _).mp hpx
          exact eq_of_beq this.1
        exact hni (by rw [hid, ← hxid]; exact List.mem_map_of_mem _ hx)
      rw [ht]
    · have hhid : h.id ≠ cid := by
        intro hcontra
        exact hni (by rw [hcontra, ← hid]; exact List.mem_map_of_mem _ hct)
      rw [List.filter_cons, if_neg (by simp [hhid])]
      exact ih hnd2 c hct hid hvis

/-- C5: `contentDetail` returns the empty result exactly when no stored
content row has the requested id and `is_visible=True`; when such a (unique)
row exists it returns exactly that row, annotated. -/
theorem C5_detail_empty_or_item :
    (∀ (db : DB) (now : Nat) (cid : Nat),
      contentDetail db now cid = [] ↔
        ∀ c ∈ db.contents, ¬(c.id = cid ∧ c.is_visible = true)) ∧
    (∀ (db : DB) (now : Nat) (cid : Nat) (c : ContentRow),
      (db.contents.map (fun c => c.id)).Nodup →
      c ∈ db.contents → c.id = cid → c.is_visible = true →
      contentDetail db now cid = [detailAnnotate db now c]) := by
  constructor
  · intro db now cid
    simp only [contentDetail]
    split
    next hemp =>
      rw [List.isEmpty_eq_true, List.filter_eq_nil_iff] at hemp
      constructor
      · intro _ c hc hcontra
        exact hemp c hc (by rw [hcontra.1, hcontra.2]; simp)
      · intro _; rfl
    next hemp =>
      rw [List.isEmpty_eq_true] at hemp
      constructor
      · intro hmap
        exact absurd (List.map_eq_nil_iff.mp hmap) hemp
      · intro hall
        exfalso
        apply hemp
        rw [List.filter_eq_nil_iff]
        intro x hx hpx
        have hb := (Bool.and_eq_true _ _).mp hpx
        exact hall x hx ⟨eq_of_beq hb.1, hb.2⟩
  · intro db now cid c hnd hc hid hvis
    have hfil := filter_id_visible_singleton db.contents hnd c hc hid hvis
    simp only [contentDetail, hfil]
    rfl

/-- Witness for C5 at the sample store: an absent id, the soft-deleted content
6, and the visible content 5. -/
theorem C5_detail_empty_or_item_witness :
    (contentDetail sampleDB t0 99 = [] ↔
      ∀ c ∈ sampleDB.contents, ¬(c.id = 99 ∧ c.is_visible = true)) ∧
    (contentDetail sampleDB t0 6 = [] ↔
      ∀ c ∈ sampleDB.contents, ¬(c.id = 6 ∧ c.is_visible = true)) ∧
    contentDetail sampleDB t0 5 = [detailAnnotate sampleDB t0 c5] :=
  ⟨C5_detail_empty_or_item.1 sampleDB t0 99,
   C5_detail_empty_or_item.1 sampleDB t0 6,
   C5_detail_empty_or_item.2 sampleDB t0 5 c5 (by decide) (by decide)
     (by decide) (by decide)⟩

/-- A valid sample payload. -/
def pValid : Payload := { valid := true, text := some "edited" }

/-- An invalid sample payload (fails serializer validation). -/
def pInvalid : Payload := { valid := false, text := none }

/-- `contentPut` on an absent id 404s. -/
theorem contentPut_none {db : DB} {req cid : Nat} {p : Payload}
    (h : content_get_row db cid = none) :
    contentPut db req cid p = (.notFound, db) := by
  unfold contentPut; rw [h]

/-- `contentPut` on a found row reduces to the ownership / validation chain. -/
theorem contentPut_some {db : DB} {req cid : Nat} {p : Payload}
    {row : ContentRow} (h : content_get_row db cid = some row) :
    contentPut db req cid p =
      (if req != row.userinfo_id then (.forbidden, db)
       else if p.valid then
        (.ok, { db with contents := db.contents.map (fun c =>
          if c.id == cid then applyPayload p c else c) })
       else (.validationError, db)) := by
  unfold contentPut; rw [h]

/-- `contentDelete` on an absent id 404s. -/
theorem contentDelete_none {db : DB} {req cid : Nat}
    (h : content_get_row db cid = none) :
    contentDelete db req cid = (.notFound, db) := by
  unfold contentDelete; rw [h]

/-- `contentDelete` on a found row reduces to the ownership chain. -/
theorem contentDelete_some {db : DB} {req cid : Nat} {row : ContentRow}
    (h : content_get_row db cid = some row) :
    contentDelete db req cid =
      (if req != row.userinfo_id then (.forbidden, db)
       else (.noContent, { db with contents := db.contents.map (fun c =>
        if c.id == cid then { c with is_visible := false } else c) })) := by
  unfold contentDelete; rw [h]

/-- `commentPut` on an absent id 404s. -/
theorem commentPut_none {db : DB} {req mid : Nat} {p : Payload}
    (h : comment_get_row db mid = none) :
    commentPut db req mid p = (.notFound, db) := by
  unfold commentPut; rw [h]

/-- `commentPut` on a found row reduces to the ownership / validation chain. -/
theorem commentPut_some {db : DB} {req mid : Nat} {p : Payload}
    {row : CommentRow} (h : comment_get_row db mid = some row) :
    commentPut db req mid p =
      (if req != row.userinfo_id then (.forbidden, db)
       else if p.valid then
        (.ok, { db with comments := db.comments.map (fun m =>
          if m.id == mid then applyCommentPayload p m else m) })
       else (.validationError, db)) := by
  unfold commentPut; rw [h]

/-- `commentDelete` on an absent id 404s. -/
theorem commentDelete_none {db : DB} {req mid : Nat}
    (h : comment_get_row db mid = none) :
    commentDelete db req mid = (.notFound, db) := by
  unfold commentDelete; rw [h]

/-- `commentDelete` on a found row reduces to the ownership chain. -/
theorem commentDelete_some {db : DB} {req mid : Nat} {row : CommentRow}
    (h : comment_get_row db mid = some row) :
    commentDelete db req mid =
      (if req != row.userinfo_id then (.forbidden, db)
       else (.noContent, { db with comments := db.comments.map (fun m =>
        if m.id == mid then { m with is_visible := false } else m) })) := by
  unfold commentDelete; rw [h]

/-- C6: the update and delete handlers for content and comments look the
target up by raw id with no visibility filter: they answer 404 exactly when
the id is absent from storage, and a soft-deleted row is still found,
ownership-checked (403 for a non-owner), and mutable (a valid partial update
succeeds and a delete soft-deletes it again). -/
theorem C6_mutation_raw_lookup :
    (∀ (db : DB) (req cid : Nat) (p : Payload),
      (contentPut db req cid p).1 = .notFound ↔
        ∀ c ∈ db.contents, c.id ≠ cid) ∧
    (∀ (db : DB) (req cid : Nat),
      (contentDelete db req cid).1 = .notFound ↔
        ∀ c ∈ db.contents, c.id ≠ cid) ∧
    (∀ (db : DB) (req mid : Nat) (p : Payload),
      (commentPut db req mid p).1 = .notFound ↔
        ∀ m ∈ db.comments, m.id ≠ mid) ∧
    (∀ (db : DB) (req mid : Nat),
      (commentDelete db req mid).1 = .notFound ↔
        ∀ m ∈ db.comments, m.id ≠ mid) ∧
    (∀ (db : DB) (req cid : Nat) (p : Payload) (c : ContentRow),
      content_get_row db cid = some c → c.is_visible = false →
      (req ≠ c.userinfo_id → (contentPut db req cid p).1 = .forbidden) ∧
      (req = c.userinfo_id → p.valid = true →
        (contentPut db req cid p).1 = .ok) ∧
      (req = c.userinfo_id → (contentDelete db req cid).1 = .noContent)) ∧
    (∀ (db : DB) (req mid : Nat) (p : Payload) (m : CommentRow),
      comment_get_row db mid = some m → m.is_visible = false →
      (req ≠ m.userinfo_id → (commentPut db req mid p).1 = .forbidden) ∧
      (req = m.userinfo_id → p.valid = true →
        (commentPut db req mid p).1 = .ok) ∧
      (req = m.userinfo_id → (commentDelete db req mid).1 = .noContent)) := by
  refine ⟨?_, ?_, ?_, ?_, ?_, ?_⟩
  · intro db req cid p
    cases hrow : content_get_row db cid with
    | none =>
      rw [contentPut_none hrow]
      simp only [true_iff]
      intro c hc hcid
      exact List.find?_eq_none.mp hrow c hc (by rw [hcid]; simp)
    | some row =>
      rw [contentPut_some hrow]
      have hrow2 : db.contents.find? (fun c => c.id == cid) = some row := hrow
      have hmem := List.mem_of_find?_eq_some hrow2
      have hrid : row.id = cid := by simpa using List.find?_some hrow2
      constructor
      · intro hres
        split at hres
        · cases hres
        · split at hres <;> cases hres
      · intro hall
        exact absurd hrid (hall row hmem)
  · intro db req cid
    cases hrow : content_get_row db cid with
    | none =>
      rw [contentDelete_none hrow]
      simp only [true_iff]
      intro c hc hcid
      exact List.find?_eq_none.mp hrow c hc (by rw [hcid]; simp)
    | some row =>
      rw [contentDelete_some hrow]
      have hrow2 : db.contents.find? (fun c => c.id == cid) = some row := hrow
      have hmem := List.mem_of_find?_eq_some hrow2
      have hrid : row.id = cid := by simpa using List.find?_some hrow2
      constructor
      · intro hres
        split at hres <;> cases hres
      · intro hall
        exact absurd hrid (hall row hmem)
  · intro db req mid p
    cases hrow : comment_get_row db mid with
    | none =>
      rw [commentPut_none hrow]
      simp only [true_iff]
      intro m hm hmid
      exact List.find?_eq_none.mp hrow m hm (by rw [hmid]; simp)
    | some row =>
      rw [commentPut_some hrow]
      have hrow2 : db.comments.find? (fun m => m.id == mid) = some row := hrow
      have hmem := List.mem_of_find?_eq_some hrow2
      have hrid : row.id = mid := by simpa using List.find?_some hrow2
      constructor
      · intro hres
        split at hres
        · cases hres
        · split at hres <;> cases hres
      · intro hall
        exact absurd hrid (hall row hmem)
  · intro db req mid
    cases hrow : comment_get_row db mid with
    | none =>
      rw [commentDelete_none hrow]
      simp only [true_iff]
      intro m hm hmid
      exact List.find?_eq_none.mp hrow m hm (by rw [hmid]; simp)
    | some row =>
      rw [commentDelete_some hrow]
      have hrow2 : db.comments.find? (fun m => m.id == mid) = some row := hrow
      have hmem := List.mem_of_find?_eq_some hrow2
      have hrid : row.id = mid := by simpa using List.find?_some hrow2
      constructor
      · intro hres
        split at hres <;> cases hres
      · intro hall
        exact absurd hrid (hall row hmem)
  · intro db req cid p c hrow _
    refine ⟨?_, ?_, ?_⟩
    · intro hne
      rw [contentPut_some hrow, if_pos (bne_iff_ne.mpr hne)]
    · intro heq hval
      rw [contentPut_some hrow,
        if_neg (by rw [heq]; simp), if_pos hval]
    · intro heq
      rw [contentDelete_some hrow, if_neg (by rw [heq]; simp)]
  · intro db req mid p m hrow _
    refine ⟨?_, ?_, ?_⟩
    · intro hne
      rw [commentPut_some hrow, if_pos (bne_iff_ne.mpr hne)]
    · intro heq hval
      rw [commentPut_some hrow,
        if_neg (by rw [heq]; simp), if_pos hval]
    · intro heq
      rw [commentDelete_some hrow, if_neg (by rw [heq]; simp)]

/-- Witness for C6 at the sample store: the soft-deleted content 6 is still
404-free, ownership-checked and mutable; an absent id 404s. -/
theorem C6_mutation_raw_lookup_witness :
    (contentPut sampleDB 9 6 pValid).1 = .forbidden ∧
    (contentPut sampleDB 7 6 pValid).1 = .ok ∧
    (contentDelete sampleDB 7 6).1 = .noContent ∧
    ((contentPut sampleDB 9 99 pValid).1 = .notFound ↔
      ∀ c ∈ sampleDB.contents, c.id ≠ 99) :=
  ⟨(C6_mutation_raw_lookup.2.2.2.2.1 sampleDB 9 6 pValid c6 (by decide)
      (by decide)).1 (by decide),
   (C6_mutation_raw_lookup.2.2.2.2.1 sampleDB 7 6 pValid c6 (by decide)
      (by decide)).2.1 (by decide) (by decide),
   (C6_mutation_raw_lookup.2.2.2.2.1 sampleDB 7 6 pValid c6 (by decide)
      (by decide)).2.2 (by decide),
   C6_mutation_raw_lookup.1 sampleDB 9 99 pValid⟩

/-- C9: a requester who is not the owner of the target content or comment
gets 403 from update and delete, for every payload (valid or not), and the
store is left unchanged. -/
theorem C9_nonowner_forbidden :
    (∀ (db : DB) (req cid : Nat) (p : Payload) (c : ContentRow),
      content_get_row db cid = some c → req ≠ c.userinfo_id →
      contentPut db req cid p = (.forbidden, db) ∧
      contentDelete db req cid = (.forbidden, db)) ∧
    (∀ (db : DB) (req mid : Nat) (p : Payload) (m : CommentRow),
      comment_get_row db mid = some m → req ≠ m.userinfo_id →
      commentPut db req mid p = (.forbidden, db) ∧
      commentDelete db req mid = (.forbidden, db)) := by
  constructor
  · intro db req cid p c hrow hne
    constructor
    · rw [contentPut_some hrow, if_pos (bne_iff_ne.mpr hne)]
    · rw [contentDelete_some hrow, if_pos (bne_iff_ne.mpr hne)]
  · intro db req mid p m hrow hne
    constructor
    · rw [commentPut_some hrow, if_pos (bne_iff_ne.mpr hne)]
    · rw [commentDelete_some hrow, if_pos (bne_iff_ne.mpr hne)]

/-- Witness for C9 at the sample store: user 9 attacking content 6 (owned by
user 7) with an invalid payload, and comment 11 (owned by user 7). -/
theorem C9_nonowner_forbidden_witness :
    (contentPut sampleDB 9 6 pInvalid = (.forbidden, sampleDB) ∧
      contentDelete sampleDB 9 6 = (.forbidden, sampleDB)) ∧
    (commentPut sampleDB 9 11 pInvalid = (.forbidden, sampleDB) ∧
      commentDelete sampleDB 9 11 = (.forbidden, sampleDB)) :=
  ⟨C9_nonowner_forbidden.1 sampleDB 9 6 pInvalid c6 (by decide) (by decide),
   C9_nonowner_forbidden.2 sampleDB 9 11 pInvalid
     { id := 11, userinfo_id := 7, contentinfo_id := 5, body := "hi",
       create_dt := 1000, is_visible := true } (by decide) (by decide)⟩

/-- A non-empty string is truthy as a query parameter. -/
theorem truthy_some_of_ne {s : String} (h : s ≠ "") :
    truthy (some s) = true := by
  unfold truthy
  cases hemp : s.isEmpty with
  | false => simp [hemp]
  | true => exact absurd ((String.isEmpty_iff s).mp hemp) h

/-- A decimal string is non-empty, hence truthy. -/
theorem truthy_of_isdecimal {s : String} (h : isdecimal s = true) :
    truthy (some s) = true := by
  unfold isdecimal at h
  unfold truthy
  exact ((Bool.and_eq_true _ _).mp h).1

/-- C8 counterexample: an empty-string selector argument is silently treated
as absent rather than rejected with 406, and an invalid selector hidden
behind an earlier valid one is silently ignored. -/
theorem C8_counterexample :
    contentList sampleDB t0
        { order_by := none, favorite_by := some "", liked_by := none,
          user := none } =
      contentList sampleDB t0 pNone ∧
    contentList sampleDB t0
        { order_by := none, favorite_by := some "", liked_by := none,
          user := none } ≠ .invalidQueryParams ∧
    contentList sampleDB t0
        { order_by := none, favorite_by := some "9", liked_by := some "abc",
          user := none } ≠ .invalidQueryParams := by
  decide

/-- C8 as amended: only the first truthy selector (in the order favorite-by,
liked-by, user for the content list; liked-by, user for the global comment
list) is examined; if its argument is non-empty and not a decimal-digit
string the request fails with 406; an empty-string argument is treated as
absent, and selectors after the first truthy one are ignored. -/
theorem C8_amended_validation :
    (∀ (db : DB) (now : Nat) (p : ContentListParams) (s : String),
      p.favorite_by = some s → s ≠ "" → isdecimal s = false →
      contentList db now p = .invalidQueryParams) ∧
    (∀ (db : DB) (now : Nat) (p : ContentListParams) (s : String),
      truthy p.favorite_by = false → p.liked_by = some s → s ≠ "" →
      isdecimal s = false →
      contentList db now p = .invalidQueryParams) ∧
    (∀ (db : DB) (now : Nat) (p : ContentListParams) (s : String),
      truthy p.favorite_by = false → truthy p.liked_by = false →
      p.user = some s → s ≠ "" → isdecimal s = false →
      contentList db now p = .invalidQueryParams) ∧
    (∀ (db : DB) (p : CommentListParams) (s : String),
      p.liked_by = some s → s ≠ "" → isdecimal s = false →
      commentList db none p = .invalidQueryParams) ∧
    (∀ (db : DB) (p : CommentListParams) (s : String),
      truthy p.liked_by = false → p.user = some s → s ≠ "" →
      isdecimal s = false →
      commentList db none p = .invalidQueryParams) := by
  refine ⟨?_, ?_, ?_, ?_, ?_⟩
  · intro db now p s hfav hne hdec
    unfold contentList contentListRows
    rw [hfav]
    simp [truthy_some_of_ne hne, hdec]
  · intro db now p s hfav hlik hne hdec
    unfold contentList contentListRows
    rw [hfav, hlik]
    simp [truthy_some_of_ne hne, hdec]
  · intro db now p s hfav hlik husr hne hdec
    unfold contentList contentListRows
    rw [hfav, hlik, husr]
    simp [truthy_some_of_ne hne, hdec]
  · intro db p s hlik hne hdec
    unfold commentList
    rw [hlik]
    simp [truthy_some_of_ne hne, hdec]
  · intro db p s hlik husr hne hdec
    unfold commentList
    rw [hlik, husr]
    simp [truthy_some_of_ne hne, hdec]

/-- Witness for the amended C8 at the sample store: `favorite-by=abc` and the
global comment list with `liked-by=x1`. -/
theorem C8_amended_validation_witness :
    contentList sampleDB t0
        { order_by := none, favorite_by := some "abc", liked_by := none,
          user := none } = .invalidQueryParams ∧
    commentList sampleDB none { liked_by := some "x1", user := none } =
      .invalidQueryParams :=
  ⟨C8_amended_validation.1 sampleDB t0
      { order_by := none, favorite_by := some "abc", liked_by := none,
        user := none } "abc" (by decide) (by decide) (by decide),
   C8_amended_validation.2.2.2.1 sampleDB
      { liked_by := some "x1", user := none } "x1" (by decide) (by decide)
      (by decide)⟩

/-- C10: a decimal `favorite-by` or `liked-by` argument naming no stored user
reaches the unguarded `objects.get`, which raises the unhandled
`UserInfo.DoesNotExist` (neither an empty list nor 406), in both the content
list and the global comment list. -/
theorem C10_dangling_user_lookup :
    (∀ (db : DB) (now : Nat) (p : ContentListParams) (s : String),
      p.favorite_by = some s → isdecimal s = true →
      (∀ u ∈ db.users, u.id ≠ pyInt s) →
      contentList db now p = .userDoesNotExist) ∧
    (∀ (db : DB) (now : Nat) (p : ContentListParams) (s : String),
      truthy p.favorite_by = false → p.liked_by = some s →
      isdecimal s = true → (∀ u ∈ db.users, u.id ≠ pyInt s) →
      contentList db now p = .userDoesNotExist) ∧
    (∀ (db : DB) (p : CommentListParams) (s : String),
      p.liked_by = some s → isdecimal s = true →
      (∀ u ∈ db.users, u.id ≠ pyInt s) →
      commentList db none p = .userDoesNotExist) := by
  have hany : ∀ (db : DB) (s : String), (∀ u ∈ db.users, u.id ≠ pyInt s) →
      db.users.any (fun u => u.id == pyInt s) = false := by
    intro db s hall
    rw [List.any_eq_false]
    intro u hu hbeq
    exact hall u hu (eq_of_beq hbeq)
  refine ⟨?_, ?_, ?_⟩
  · intro db now p s hfav hdec hall
    unfold contentList contentListRows
    rw [hfav]
    simp [truthy_of_isdecimal hdec, hdec, hany db s hall]
  · intro db now p s hfav hlik hdec hall
    unfold contentList contentListRows
    rw [hfav, hlik]
    simp [truthy_of_isdecimal hdec, hdec, hany db s hall]
  · intro db p s hlik hdec hall
    unfold commentList
    rw [hlik]
    simp [truthy_of_isdecimal hdec, hdec, hany db s hall]

/-- Witness for C10 at the sample store: no user has id 3. -/
theorem C10_dangling_user_lookup_witness :
    contentList sampleDB t0
        { order_by := none, favorite_by := some "3", liked_by := none,
          user := none } = .userDoesNotExist ∧
    commentList sampleDB none { liked_by := some "3", user := none } =
      .userDoesNotExist :=
  ⟨C10_dangling_user_lookup.1 sampleDB t0
      { order_by := none, favorite_by := some "3", liked_by := none,
        user := none } "3" (by decide) (by decide) (by decide),
   C10_dangling_user_lookup.2.2 sampleDB
      { liked_by := some "3", user := none } "3" (by decide) (by decide)
      (by decide)⟩

/-- The `"message"` key of a toggle response body, when the response is 200. -/
def toggleMessage : ToggleResult → Option String
  | .ok b => some b.message
  | _ => none

/-- Removing a pair from a relation list and re-appending it preserves
membership, provided the pair was present. -/
theorem mem_filter_append_self {rel : List (Nat × Nat)} {pr : Nat × Nat}
    (h : pr ∈ rel) (q : Nat × Nat) :
    (q ∈ rel.filter (fun x => x != pr) ++ [pr] ↔ q ∈ rel) := by
  simp only [List.mem_append, List.mem_filter, List.mem_singleton,
    bne_iff_ne, ne_eq]
  constructor
  · rintro (⟨hq, _⟩ | rfl)
    · exact hq
    · exact h
  · intro hq
    by_cases hqp : q = pr
    · right; exact hqp
    · left; exact ⟨hq, hqp⟩

/-- Filtering out an absent pair leaves a relation list unchanged. -/
theorem filter_ne_of_not_mem {rel : List (Nat × Nat)} {pr : Nat × Nat}
    (h : pr ∉ rel) : rel.filter (fun x => x != pr) = rel := by
  rw [List.filter_eq_self]
  intro a ha
  exact bne_iff_ne.mpr (fun hc => h (hc ▸ ha))

/-- Double favorite toggle, with the actor and target lookups resolved. -/
theorem favorite_toggle_twice (db : DB) (uid cid : Nat) (me : UserRow)
    (content : ContentRow)
    (hu : db.users.find? (fun u => u.id == uid) = some me)
    (hc : db.contents.find? (fun c => c.id == cid) = some content) :
    (∀ q, q ∈ (content_favorite (content_favorite db (some uid) cid).2
        (some uid) cid).2.content_favorites ↔ q ∈ db.content_favorites) ∧
    ((toggleMessage (content_favorite db (some uid) cid).1 =
        some "Favorite content success." ∧
      toggleMessage (content_favorite (content_favorite db (some uid) cid).2
        (some uid) cid).1 = some "Favorite content canceled.") ∨
     (toggleMessage (content_favorite db (some uid) cid).1 =
        some "Favorite content canceled." ∧
      toggleMessage (content_favorite (content_favorite db (some uid) cid).2
        (some uid) cid).1 = some "Favorite content success.")) := by
  by_cases hin : db.content_favorites.contains (uid, cid) = true
  · have hpr : (uid, cid) ∈ db.content_favorites := (contains_iff_mem _ _).mp hin
    have hstep :
        (content_favorite (content_favorite db (some uid) cid).2
          (some uid) cid).2.content_favorites =
          db.content_favorites.filter (fun x => x != (uid, cid)) ++
            [(uid, cid)] ∧
        (content_favorite db (some uid) cid).1 =
          .ok { message := "Favorite content canceled.", user := none,
                content_id := none } ∧
        (content_favorite (content_favorite db (some uid) cid).2
          (some uid) cid).1 =
          .ok { message := "Favorite content success.",
                user := some me.username, content_id := some content.id } := by
      refine ⟨?_, ?_, ?_⟩ <;>
        simp [content_favorite, hu, hc, hpr]
    refine ⟨fun q => ?_, Or.inr ⟨?_, ?_⟩⟩
    · rw [hstep.1]; exact mem_filter_append_self hpr q
    · rw [hstep.2.1]; rfl
    · rw [hstep.2.2]; rfl
  · have hnotin : (uid, cid) ∉ db.content_favorites :=
      fun hmem => hin ((contains_iff_mem _ _).mpr hmem)
    have hfil : (db.content_favorites ++ [(uid, cid)]).filter
        (fun x => x != (uid, cid)) = db.content_favorites := by
      rw [List.filter_append, filter_ne_of_not_mem hnotin]
      simp
    have hstep :
        (content_favorite (content_favorite db (some uid) cid).2
          (some uid) cid).2.content_favorites = db.content_favorites ∧
        (content_favorite db (some uid) cid).1 =
          .ok { message := "Favorite content success.",
                user := some me.username, content_id := some content.id } ∧
        (content_favorite (content_favorite db (some uid) cid).2
          (some uid) cid).1 =
          .ok { message := "Favorite content canceled.", user := none,
                content_id := none } := by
      refine ⟨?_, ?_, ?_⟩ <;>
        simp [content_favorite, hu, hc, hnotin, hfil]
    refine ⟨fun q => ?_, Or.inl ⟨?_, ?_⟩⟩
    · rw [hstep.1]
    · rw [hstep.2.1]; rfl
    · rw [hstep.2.2]; rfl

/-- Double content-like toggle, with the actor and target lookups resolved. -/
theorem content_like_toggle_twice (db : DB) (uid cid : Nat) (me : UserRow)
    (content : ContentRow)
    (hu : db.users.find? (fun u => u.id == uid) = some me)
    (hc : db.contents.find? (fun c => c.id == cid) = some content) :
    (∀ q, q ∈ (content_like (content_like db (some uid) cid).2
        (some uid) cid).2.content_likes ↔ q ∈ db.content_likes) ∧
    ((toggleMessage (content_like db (some uid) cid).1 =
        some "Like content success." ∧
      toggleMessage (content_like (content_like db (some uid) cid).2
        (some uid) cid).1 = some "Like content canceled.") ∨
     (toggleMessage (content_like db (some uid) cid).1 =
        some "Like content canceled." ∧
      toggleMessage (content_like (content_like db (some uid) cid).2
        (some uid) cid).1 = some "Like content success.")) := by
  by_cases hin : db.content_likes.contains (uid, cid) = true
  · have hpr : (uid, cid) ∈ db.content_likes := (contains_iff_mem _ _).mp hin
    have hstep :
        (content_like (content_like db (some uid) cid).2
          (some uid) cid).2.content_likes =
          db.content_likes.filter (fun x => x != (uid, cid)) ++ [(uid, cid)] ∧
        (content_like db (some uid) cid).1 =
          .ok { message := "Like content canceled.", user := none,
                content_id := none } ∧
        (content_like (content_like db (some uid) cid).2
          (some uid) cid).1 =
          .ok { message := "Like content success.",
                user := some me.username, content_id := some content.id } := by
      refine ⟨?_, ?_, ?_⟩ <;>
        simp [content_like, hu, hc, hpr]
    refine ⟨fun q => ?_, Or.inr ⟨?_, ?_⟩⟩
    · rw [hstep.1]; exact mem_filter_append_self hpr q
    · rw [hstep.2.1]; rfl
    · rw [hstep.2.2]; rfl
  · have hnotin : (uid, cid) ∉ db.content_likes :=
      fun hmem => hin ((contains_iff_mem _ _).mpr hmem)
    have hfil : (db.content_likes ++ [(uid, cid)]).filter
        (fun x => x != (uid, cid)) = db.content_likes := by
      rw [List.filter_append, filter_ne_of_not_mem hnotin]
      simp
    have hstep :
        (content_like (content_like db (some uid) cid).2
          (some uid) cid).2.content_likes = db.content_likes ∧
        (content_like db (some uid) cid).1 =
          .ok { message := "Like content success.",
                user := some me.username, content_id := some content.id } ∧
        (content_like (content_like db (some uid) cid).2
          (some uid) cid).1 =
          .ok { message := "Like content canceled.", user := none,
                content_id := none } := by
      refine ⟨?_, ?_, ?_⟩ <;>
        simp [content_like, hu, hc, hnotin, hfil]
    refine ⟨fun q => ?_, Or.inl ⟨?_, ?_⟩⟩
    · rw [hstep.1]
    · rw [hstep.2.1]; rfl
    · rw [hstep.2.2]; rfl

/-- Double comment-like toggle, with the actor and target lookups resolved. -/
theorem comment_like_toggle_twice (db : DB) (uid mid : Nat) (me : UserRow)
    (comment : CommentRow)
    (hu : db.users.find? (fun u => u.id == uid) = some me)
    (hc : db.comments.find? (fun m => m.id == mid) = some comment) :
    (∀ q, q ∈ (comment_like (comment_like db (some uid) mid).2
        (some uid) mid).2.comment_likes ↔ q ∈ db.comment_likes) ∧
    ((toggleMessage (comment_like db (some uid) mid).1 =
        some "Like comment success." ∧
      toggleMessage (comment_like (comment_like db (some uid) mid).2
        (some uid) mid).1 = some "Like comment canceled.") ∨
     (toggleMessage (comment_like db (some uid) mid).1 =
        some "Like comment canceled." ∧
      toggleMessage (comment_like (comment_like db (some uid) mid).2
        (some uid) mid).1 = some "Like comment success.")) := by
  by_cases hin : db.comment_likes.contains (uid, mid) = true
  · have hpr : (uid, mid) ∈ db.comment_likes := (contains_iff_mem _ _).mp hin
    have hstep :
        (comment_like (comment_like db (some uid) mid).2
          (some uid) mid).2.comment_likes =
          db.comment_likes.filter (fun x => x != (uid, mid)) ++ [(uid, mid)] ∧
        (comment_like db (some uid) mid).1 =
          .ok { message := "Like comment canceled.", user := none,
                content_id := none } ∧
        (comment_like (comment_like db (some uid) mid).2
          (some uid) mid).1 =
          .ok { message := "Like comment success.",
                user := some me.username, content_id := some comment.id } := by
      refine ⟨?_, ?_, ?_⟩ <;>
        simp [comment_like, hu, hc, hpr]
    refine ⟨fun q => ?_, Or.inr ⟨?_, ?_⟩⟩
    · rw [hstep.1]; exact mem_filter_append_self hpr q
    · rw [hstep.2.1]; rfl
    · rw [hstep.2.2]; rfl
  · have hnotin : (uid, mid) ∉ db.comment_likes :=
      fun hmem => hin ((contains_iff_mem _ _).mpr hmem)
    have hfil : (db.comment_likes ++ [(uid, mid)]).filter
        (fun x => x != (uid, mid)) = db.comment_likes := by
      rw [List.filter_append, filter_ne_of_not_mem hnotin]
      simp
    have hstep :
        (comment_like (comment_like db (some uid) mid).2
          (some uid) mid).2.comment_likes = db.comment_likes ∧
        (comment_like db (some uid) mid).1 =
          .ok { message := "Like comment success.",
                user := some me.username, content_id := some comment.id } ∧
        (comment_like (comment_like db (some uid) mid).2
          (some uid) mid).1 =
          .ok { message := "Like comment canceled.", user := none,
                content_id := none } := by
      refine ⟨?_, ?_, ?_⟩ <;>
        simp [comment_like, hu, hc, hnotin, hfil]
    refine ⟨fun q => ?_, Or.inl ⟨?_, ?_⟩⟩
    · rw [hstep.1]
    · rw [hstep.2.1]; rfl
    · rw [hstep.2.2]; rfl

/-- C4: for every store, authenticated actor that exists, and existing target,
toggling the same favorite / content-like / comment-like relation twice in
succession restores the relation's membership state, and the second 200
response reports "canceled" exactly when the first reported "success", and
vice versa. -/
theorem C4_double_toggle :
    (∀ (db : DB) (uid cid : Nat),
      (db.users.find? (fun u => u.id == uid)).isSome = true →
      (db.contents.find? (fun c => c.id == cid)).isSome = true →
      (∀ q, q ∈ (content_favorite (content_favorite db (some uid) cid).2
          (some uid) cid).2.content_favorites ↔
          q ∈ db.content_favorites) ∧
      ((toggleMessage (content_favorite db (some uid) cid).1 =
          some "Favorite content success." ∧
        toggleMessage (content_favorite (content_favorite db (some uid) cid).2
          (some uid) cid).1 = some "Favorite content canceled.") ∨
       (toggleMessage (content_favorite db (some uid) cid).1 =
          some "Favorite content canceled." ∧
        toggleMessage (content_favorite (content_favorite db (some uid) cid).2
          (some uid) cid).1 = some "Favorite content success."))) ∧
    (∀ (db : DB) (uid cid : Nat),
      (db.users.find? (fun u => u.id == uid)).isSome = true →
      (db.contents.find? (fun c => c.id == cid)).isSome = true →
      (∀ q, q ∈ (content_like (content_like db (some uid) cid).2
          (some uid) cid).2.content_likes ↔ q ∈ db.content_likes) ∧
      ((toggleMessage (content_like db (some uid) cid).1 =
          some "Like content success." ∧
        toggleMessage (content_like (content_like db (some uid) cid).2
          (some uid) cid).1 = some "Like content canceled.") ∨
       (toggleMessage (content_like db (some uid) cid).1 =
          some "Like content canceled." ∧
        toggleMessage (content_like (content_like db (some uid) cid).2
          (some uid) cid).1 = some "Like content success."))) ∧
    (∀ (db : DB) (uid mid : Nat),
      (db.users.find? (fun u => u.id == uid)).isSome = true →
      (db.comments.find? (fun m => m.id == mid)).isSome = true →
      (∀ q, q ∈ (comment_like (comment_like db (some uid) mid).2
          (some uid) mid).2.comment_likes ↔ q ∈ db.comment_likes) ∧
      ((toggleMessage (comment_like db (some uid) mid).1 =
          some "Like comment success." ∧
        toggleMessage (comment_like (comment_like db (some uid) mid).2
          (some uid) mid).1 = some "Like comment canceled.") ∨
       (toggleMessage (comment_like db (some uid) mid).1 =
          some "Like comment canceled." ∧
        toggleMessage (comment_like (comment_like db (some uid) mid).2
          (some uid) mid).1 = some "Like comment success."))) := by
  refine ⟨?_, ?_, ?_⟩
  · intro db uid cid hu hc
    obtain ⟨me, hme⟩ := Option.isSome_iff_exists.mp hu
    obtain ⟨content, hcon⟩ := Option.isSome_iff_exists.mp hc
    exact favorite_toggle_twice db uid cid me content hme hcon
  · intro db uid cid hu hc
    obtain ⟨me, hme⟩ := Option.isSome_iff_exists.mp hu
    obtain ⟨content, hcon⟩ := Option.isSome_iff_exists.mp hc
    exact content_like_toggle_twice db uid cid me content hme hcon
  · intro db uid mid hu hc
    obtain ⟨me, hme⟩ := Option.isSome_iff_exists.mp hu
    obtain ⟨comment, hcom⟩ := Option.isSome_iff_exists.mp hc
    exact comment_like_toggle_twice db uid mid me comment hme hcom

/-- Witness for C4 at the sample store: double favorite toggle by user 7 on
content 5 and double comment-like toggle by user 9 on comment 11. -/
theorem C4_double_toggle_witness :
    ((7, 5) ∈ (content_favorite (content_favorite sampleDB (some 7) 5).2
        (some 7) 5).2.content_favorites ↔
      (7, 5) ∈ sampleDB.content_favorites) ∧
    ((9, 11) ∈ (comment_like (comment_like sampleDB (some 9) 11).2
        (some 9) 11).2.comment_likes ↔
      (9, 11) ∈ sampleDB.comment_likes) :=
  ⟨(C4_double_toggle.1 sampleDB 7 5 (by decide) (by decide)).1 (7, 5),
   (C4_double_toggle.2.2 sampleDB 9 11 (by decide) (by decide)).1 (9, 11)⟩

/-- C7 counterexample: the cancel branch of a toggle answers 200 with a body
containing only the `"message"` key; user 7 already favorites content 5 in
the sample store, and the response to their toggle carries neither `"user"`
nor `"content_id"`. -/
theorem C7_counterexample :
    (content_favorite sampleDB (some 7) 5).1 =
      .ok { message := "Favorite content canceled.", user := none,
            content_id := none } := by
  decide

/-- C7 as amended: the insert branch of each toggle answers 200 with
`{message, user, content_id}` — "success", the actor's username and the
target id echoed — while the remove branch answers 200 with a body containing
only `{message}` ("canceled"), without the user and target fields. -/
theorem C7_amended_toggle_bodies :
    (∀ (db : DB) (uid cid : Nat) (me : UserRow) (content : ContentRow),
      db.users.find? (fun u => u.id == uid) = some me →
      db.contents.find? (fun c => c.id == cid) = some content →
      (db.content_favorites.contains (uid, cid) = false →
        (content_favorite db (some uid) cid).1 =
          .ok { message := "Favorite content success.",
                user := some me.username, content_id := some content.id }) ∧
      (db.content_favorites.contains (uid, cid) = true →
        (content_favorite db (some uid) cid).1 =
          .ok { message := "Favorite content canceled.", user := none,
                content_id := none })) ∧
    (∀ (db : DB) (uid cid : Nat) (me : UserRow) (content : ContentRow),
      db.users.find? (fun u => u.id == uid) = some me →
      db.contents.find? (fun c => c.id == cid) = some content →
      (db.content_likes.contains (uid, cid) = false →
        (content_like db (some uid) cid).1 =
          .ok { message := "Like content success.",
                user := some me.username, content_id := some content.id }) ∧
      (db.content_likes.contains (uid, cid) = true →
        (content_like db (some uid) cid).1 =
          .ok { message := "Like content canceled.", user := none,
                content_id := none })) ∧
    (∀ (db : DB) (uid mid : Nat) (me : UserRow) (comment : CommentRow),
      db.users.find? (fun u => u.id == uid) = some me →
      db.comments.find? (fun m => m.id == mid) = some comment →
      (db.comment_likes.contains (uid, mid) = false →
        (comment_like db (some uid) mid).1 =
          .ok { message := "Like comment success.",
                user := some me.username, content_id := some comment.id }) ∧
      (db.comment_likes.contains (uid, mid) = true →
        (comment_like db (some uid) mid).1 =
          .ok { message := "Like comment canceled.", user := none,
                content_id := none })) := by
  refine ⟨?_, ?_, ?_⟩
  · intro db uid cid me content hu hc
    constructor
    · intro hmem
      have hnot : (uid, cid) ∉ db.content_favorites := by
        intro h
        rw [(contains_iff_mem _ _).mpr h] at hmem
        cases hmem
      simp [content_favorite, hu, hc, hnot]
    · intro hmem
      have hpr := (contains_iff_mem _ _).mp hmem
      simp [content_favorite, hu, hc, hpr]
  · intro db uid cid me content hu hc
    constructor
    · intro hmem
      have hnot : (uid, cid) ∉ db.content_likes := by
        intro h
        rw [(contains_iff_mem _ _).mpr h] at hmem
        cases hmem
      simp [content_like, hu, hc, hnot]
    · intro hmem
      have hpr := (contains_iff_mem _ _).mp hmem
      simp [content_like, hu, hc, hpr]
  · intro db uid mid me comment hu hc
    constructor
    · intro hmem
      have hnot : (uid, mid) ∉ db.comment_likes := by
        intro h
        rw [(contains_iff_mem _ _).mpr h] at hmem
        cases hmem
      simp [comment_like, hu, hc, hnot]
    · intro hmem
      have hpr := (contains_iff_mem _ _).mp hmem
      simp [comment_like, hu, hc, hpr]

/-- Witness for the amended C7 at the sample store: user 9 favoriting content
5 (insert branch) and user 7 favoriting it again (remove branch). -/
theorem C7_amended_toggle_bodies_witness :
    (content_favorite sampleDB (some 9) 5).1 =
      .ok { message := "Favorite content success.", user := some "kim",
            content_id := some 5 } ∧
    (content_favorite sampleDB (some 7) 5).1 =
      .ok { message := "Favorite content canceled.", user := none,
            content_id := none } :=
  ⟨(C7_amended_toggle_bodies.1 sampleDB 9 5 { id := 9, username := "kim" } c5
      (by decide) (by decide)).1 (by decide),
   (C7_amended_toggle_bodies.1 sampleDB 7 5 { id := 7, username := "lee" } c5
      (by decide) (by decide)).2 (by decide)⟩
